import Mathlib

/-!
Shallow embedding of the `lambdapipeline` repository (src/src/handler.rs): an
event-triggered ETL Lambda that fetches a CSV object from S3, loads it into a
DataFrame, applies a transform, and writes the result back to a destination
bucket.  The handler's storage capability (`get`/`put`) is modelled as explicit
function parameters and the handler returns a run record containing both its
outcome and the number of fetch/transform/put calls it performed.

The Rust source as committed does not compile (type errors, missing struct
fields, a missing `.await`); the embedding follows the written control flow of
the source, which is unambiguous: the fetch error branch only logs, the
handler never branches on the fetch outcome, and the success response is
constructed from the request id and a message alone.
-/

namespace LambdaPipeline

/-- Special characters of the delimited-text encoding.  The quote and newline
characters are constructed by code point to keep the character set explicit. -/
def quoteChar : Char := Char.ofNat 34

def commaChar : Char := ','

def newlineChar : Char := Char.ofNat 10

/-- Tabular in-memory representation.  The source stores the decoded CSV in a
polars `DataFrame`; the spec's `TabularDataset` is named columns in insertion
order with a shared row count, all cell values treated as text.  Modelled as a
header (column names in order) plus the data rows. -/
structure DataFrame where
  header : List String
  rows : List (List String)
deriving DecidableEq, Repr

/-- Modelled from the spec: the `MalformedInputError` conditions of the tabular
codec (spec section 4.1).  The codec itself is the external polars
CsvReader/CsvWriter, not code under src/, so it is modelled from the spec's
words: empty byte stream, a data row whose field count differs from the
header's, or a quoted field unterminated at end of input. -/
inductive MalformedInput where
  | emptyInput
  | rowFieldCountMismatch
  | unterminatedQuote
deriving DecidableEq, Repr

/-- Finalize a field accumulated in reverse order into a string. -/
def mkStr (fld : List Char) : String := ⟨fld.reverse⟩

/-- Modelled from the spec: the CSV record scanner underlying `decode`
(spec section 4.1; the implementation is the external polars CsvReader).
A single left-to-right pass over the characters: `inQuote` says whether the
scan is inside a quoted field, `fld` is the current field accumulated in
reverse, `rec` the fields of the current record in reverse, `acc` the
completed records in reverse.  A doubled quote inside a quoted field denotes
one literal quote; an unterminated quoted field at end of input is a failure
(`none`). -/
def goCsv : List Char → Bool → List Char → List String → List (List String) →
    Option (List (List String))
  | [], false, fld, rec, acc =>
      if fld = [] ∧ rec = [] then some acc.reverse
      else some (((mkStr fld :: rec).reverse :: acc).reverse)
  | [], true, _, _, _ => none
  | [c], true, fld, rec, acc =>
      if c = quoteChar then
        if fld = [] ∧ rec = [] then some acc.reverse
        else some (((mkStr fld :: rec).reverse :: acc).reverse)
      else none
  | c :: c2 :: cs2, true, fld, rec, acc =>
      if c = quoteChar then
        if c2 = quoteChar then goCsv cs2 true (quoteChar :: fld) rec acc
        else goCsv (c2 :: cs2) false fld rec acc
      else goCsv (c2 :: cs2) true (c :: fld) rec acc
  | c :: cs, false, fld, rec, acc =>
      if c = commaChar then goCsv cs false [] (mkStr fld :: rec) acc
      else if c = newlineChar then
        goCsv cs false [] [] ((mkStr fld :: rec).reverse :: acc)
      else if c = quoteChar ∧ fld = [] then goCsv cs true [] rec acc
      else goCsv cs false (c :: fld) rec acc

/-- Scan a whole character sequence into records. -/
def parseRecords (cs : List Char) : Option (List (List String)) :=
  goCsv cs false [] [] []

/-- Modelled from the spec: `decode(bytes) -> TabularDataset` (spec section
4.1; the implementation is the external polars CsvReader).  The first record
is the header; every later record is a data row and must have the header's
field count.  Fails on an empty byte stream, a field-count mismatch, or an
unterminated quoted field. -/
def decode (cs : List Char) : Except MalformedInput DataFrame :=
  if cs = [] then .error .emptyInput
  else
    match parseRecords cs with
    | none => .error .unterminatedQuote
    | some [] => .error .emptyInput
    | some (header :: rows) =>
        if rows.all (fun r => r.length == header.length) then .ok ⟨header, rows⟩
        else .error .rowFieldCountMismatch

/-- Double every quote character of a field body, the escaping used inside a
quoted field. -/
def escapeQuotes : List Char → List Char
  | [] => []
  | c :: cs =>
      if c = quoteChar then quoteChar :: quoteChar :: escapeQuotes cs
      else c :: escapeQuotes cs

/-- A field needs quoting when it contains the delimiter, a quote character,
or a line terminator. -/
def needsQuote (f : List Char) : Bool :=
  f.any (fun c => c = commaChar || c = quoteChar || c = newlineChar)

/-- Modelled from the spec: field serialization of `encode` — quote (and
escape) only when the field contains a special character. -/
def encodeField (f : String) : List Char :=
  if needsQuote f.data then quoteChar :: (escapeQuotes f.data ++ [quoteChar])
  else f.data

/-- Serialize one record: fields joined by the comma delimiter. -/
def encodeRecord : List String → List Char
  | [] => []
  | [f] => encodeField f
  | f :: g :: fs => encodeField f ++ commaChar :: encodeRecord (g :: fs)

/-- Serialize a sequence of records, each terminated by the fixed line
terminator. -/
def encodeLines : List (List String) → List Char
  | [] => []
  | r :: rs => encodeRecord r ++ newlineChar :: encodeLines rs

/-- Modelled from the spec: `encode(TabularDataset) -> bytes` (spec section
4.1; the implementation is the external polars CsvWriter configured with
header line, comma separator, double-quote quoting and newline terminator, as
in `write_s3_object`).  Header line first, then one line per row. -/
def encode (d : DataFrame) : List Char :=
  encodeLines (d.header :: d.rows)

/-- Storage-layer failures of the S3 get request (notably the absent-object
case). -/
inductive GetError where
  | noSuchKey
  | accessDenied
  | transient
deriving DecidableEq, Repr

/-- Storage-layer failures of the S3 put request. -/
inductive PutError where
  | accessDenied
  | transient
  | quotaExceeded
deriving DecidableEq, Repr

/-- Acknowledgement of a successful put (the source's `PutObjectOutput`,
whose contents the handler never inspects). -/
structure PutAck where
deriving DecidableEq, Repr

/-- Possible outcomes of `read_s3_object`.  The source declares the return
type `Result<DataFrame, anyhow::Error>`; `err` is the `Err` case of that
declared type.  `panicked` is an `.unwrap()` panic, and `loggedUnit` is the
source's storage-error match arm, which only emits a log line and produces
the unit value of the tracing macro instead of any `Result` value (one of the
type errors that keep the source from compiling). -/
inductive FetchOutcome where
  | ok (df : DataFrame)
  | err (e : GetError)
  | panicked
  | loggedUnit
deriving DecidableEq, Repr

/-- Embedding of `read_s3_object` (handler.rs lines 56-79).  The get request
is modelled by its result.  On success the body is collected and decoded with
`CsvReader::new(cursor).finish().unwrap()` — the unwrap turns any decode
failure into a panic.  On a storage error the source's match arm only logs
`"Failure with S3 Get Object request"`. -/
def read_s3_object (getResult : Except GetError (List Char)) : FetchOutcome :=
  match getResult with
  | .ok bytes =>
      match decode bytes with
      | .ok df => .ok df
      | .error _ => .panicked
  | .error _ => .loggedUnit

/-- Embedding of `transform` (handler.rs lines 110-114): logs the head of the
frame and returns the data unchanged. -/
def transform (data : DataFrame) : DataFrame := data

/-- Output-key derivation of the handler (handler.rs line 160): the source
sets `let output_key:String = "";` — a constant empty string, independent of
the source key. -/
def deriveKey (_sourceKey : String) : String := ""

/-- Embedding of `write_s3_object` (handler.rs lines 84-106): encode the
frame with the CsvWriter and issue one put request.  The `Option` on the data
reflects the handler's control flow: when the fetch failed and was swallowed,
control still reaches the writer with no dataset in hand (the source does not
compile there; `none` marks that call). -/
def write_s3_object (put : String → String → Option (List Char) → Except PutError PutAck)
    (bucket key : String) (data : Option DataFrame) : Except PutError PutAck :=
  put bucket key (data.map encode)

/-- The bucket element of an S3 event record; the name is optional in the
`aws_lambda_events` type. -/
structure S3Bucket where
  name : Option String
deriving DecidableEq, Repr

/-- The object element of an S3 event record; the key is optional. -/
structure S3Object where
  key : Option String
deriving DecidableEq, Repr

/-- The `s3` entity of an event record: bucket and object. -/
structure S3Entity where
  bucket : S3Bucket
  object : S3Object
deriving DecidableEq, Repr

/-- One record of an S3 event. -/
structure S3EventRecord where
  s3 : S3Entity
deriving DecidableEq, Repr

/-- An S3 trigger event: a list of records. -/
structure S3Event where
  records : List S3EventRecord
deriving DecidableEq, Repr

/-- The invocation context; the handler uses only the request id. -/
structure LambdaContext where
  request_id : String
deriving DecidableEq, Repr

/-- The Lambda event handed to the handler: payload plus context. -/
structure LambdaEvent where
  payload : S3Event
  context : LambdaContext
deriving DecidableEq, Repr

/-- The `Response` struct as declared in the source (handler.rs lines 41-47):
request id, bucket, key, message. -/
structure Response where
  req_id : String
  bucket : String
  key : String
  msg : String
deriving DecidableEq, Repr

/-- The success payload the handler actually constructs (handler.rs lines
166-172): only `req_id` and `msg` are supplied; the declared `bucket` and
`key` fields are omitted (a missing-fields error in Rust). -/
structure BuiltResponse where
  req_id : String
  msg : String
deriving DecidableEq, Repr

/-- Outcome of one handler invocation: `okUnit` is the trailing `Ok(())`,
`okResponse` the success payload, `errPut` the propagated SDK put error, and
`panicked` an `.unwrap()` panic on a missing record field or a failed
decode. -/
inductive HandlerOutcome where
  | okUnit
  | okResponse (r : BuiltResponse)
  | errPut (e : PutError)
  | panicked
deriving DecidableEq, Repr

/-- One handler run: the outcome together with how many fetch, transform and
put calls were performed. -/
structure HandlerRun where
  outcome : HandlerOutcome
  fetchCalls : Nat
  transformCalls : Nat
  putCalls : Nat
deriving DecidableEq, Repr

/-- Embedding of `handler` (handler.rs lines 123-185).  The storage
capability is passed as the `get` and `put` functions and the destination
bucket as `output_bucket` (resolved at startup, see `mkProgram`).  Control
flow follows the source: take the first record if any; unwrap its bucket name
and object key (panicking when absent); fetch and decode; call `transform`;
derive the output key; call the writer; map the put result to a response or
an error.  The source never branches on the fetch outcome, so after a
swallowed storage error control still reaches `transform` and the writer. -/
def handler (output_bucket : String)
    (get : String → String → Except GetError (List Char))
    (put : String → String → Option (List Char) → Except PutError PutAck)
    (event : LambdaEvent) : HandlerRun :=
  match event.payload.records.head? with
  | none => ⟨.okUnit, 0, 0, 0⟩
  | some r =>
    match r.s3.bucket.name, r.s3.object.key with
    | some bucket, some key =>
      match read_s3_object (get bucket key) with
      | .panicked => ⟨.panicked, 1, 0, 0⟩
      | .ok df =>
          match write_s3_object put output_bucket (deriveKey key) (some (transform df)) with
          | .ok _ =>
              ⟨.okResponse ⟨event.context.request_id, "Completed Processing Data!"⟩, 1, 1, 1⟩
          | .error e => ⟨.errPut e, 1, 1, 1⟩
      | _ =>
          match write_s3_object put output_bucket (deriveKey key) none with
          | .ok _ =>
              ⟨.okResponse ⟨event.context.request_id, "Completed Processing Data!"⟩, 1, 1, 1⟩
          | .error e => ⟨.errPut e, 1, 1, 1⟩
    | _, _ => ⟨.panicked, 0, 0, 0⟩

/-- The configured program after startup.  `main` (handler.rs lines 190-218)
reads `AWS_REGION` and the handler reads `OUTPUT_S3_BUCKET`, both through the
compile-time `env!` macro with an error message for the absent case, so a
missing value aborts the build and no invocation-accepting process exists.
Modelled as program construction from the environment: both values are
required before a program value (and with it the invocation loop) exists. -/
structure Program where
  output_bucket : String
  region : String
deriving DecidableEq, Repr

/-- Startup configuration resolution: the program exists only when both
required environment values are present. -/
def mkProgram (env : String → Option String) : Option Program :=
  match env ("OUTPUT_S3_BUCKET") with
  | none => none
  | some b =>
      match env ("AWS_REGION") with
      | none => none
      | some r => some ⟨b, r⟩

/-! Step lemmas for the record scanner. -/

theorem goCsv_true_pair (cs : List Char) (fld : List Char) (rec : List String)
    (acc : List (List String)) :
    goCsv (quoteChar :: quoteChar :: cs) true fld rec acc =
      goCsv cs true (quoteChar :: fld) rec acc := by
  simp [goCsv]

theorem goCsv_true_close (cs : List Char) (hcs : cs.head? ≠ some quoteChar)
    (fld : List Char) (rec : List String) (acc : List (List String)) :
    goCsv (quoteChar :: cs) true fld rec acc = goCsv cs false fld rec acc := by
  cases cs with
  | nil => simp [goCsv]
  | cons d ds =>
      have hd : d ≠ quoteChar := by
        intro h
        exact hcs (by simp [h])
      simp [goCsv, hd]

theorem goCsv_true_cons (c : Char) (hc : c ≠ quoteChar) (cs : List Char)
    (hcs : cs ≠ []) (fld : List Char) (rec : List String) (acc : List (List String)) :
    goCsv (c :: cs) true fld rec acc = goCsv cs true (c :: fld) rec acc := by
  cases cs with
  | nil => exact absurd rfl hcs
  | cons d ds => simp [goCsv, hc]

theorem goCsv_false_comma (cs : List Char) (fld : List Char) (rec : List String)
    (acc : List (List String)) :
    goCsv (commaChar :: cs) false fld rec acc =
      goCsv cs false [] (mkStr fld :: rec) acc := by
  simp [goCsv]

theorem goCsv_false_newline (cs : List Char) (fld : List Char) (rec : List String)
    (acc : List (List String)) :
    goCsv (newlineChar :: cs) false fld rec acc =
      goCsv cs false [] [] ((mkStr fld :: rec).reverse :: acc) := by
  have h1 : newlineChar ≠ commaChar := by decide
  simp [goCsv, h1]

theorem goCsv_false_quote_empty (cs : List Char) (rec : List String)
    (acc : List (List String)) :
    goCsv (quoteChar :: cs) false [] rec acc = goCsv cs true [] rec acc := by
  have h1 : quoteChar ≠ commaChar := by decide
  have h2 : quoteChar ≠ newlineChar := by decide
  simp [goCsv, h1, h2]

theorem goCsv_false_other (c : Char) (hc : c ≠ commaChar) (hn : c ≠ newlineChar)
    (hq : c ≠ quoteChar) (cs : List Char) (fld : List Char) (rec : List String)
    (acc : List (List String)) :
    goCsv (c :: cs) false fld rec acc = goCsv cs false (c :: fld) rec acc := by
  simp [goCsv, hc, hn, hq]

/-! Consuming a serialized field or record advances the scanner state in the
expected way. -/

theorem goCsv_text (f : List Char)
    (hf : ∀ c ∈ f, ¬(c = commaChar ∨ c = quoteChar ∨ c = newlineChar))
    (cs : List Char) (fld : List Char) (rec : List String) (acc : List (List String)) :
    goCsv (f ++ cs) false fld rec acc = goCsv cs false (f.reverse ++ fld) rec acc := by
  induction f generalizing fld with
  | nil => simp
  | cons c f' ih =>
      have hc := hf c (by simp)
      rw [List.cons_append,
        goCsv_false_other c (fun h => hc (Or.inl h)) (fun h => hc (Or.inr (Or.inr h)))
          (fun h => hc (Or.inr (Or.inl h))) (f' ++ cs) fld rec acc,
        ih (fun c hc' => hf c (by simp [hc'])) (c :: fld)]
      simp

theorem goCsv_quoted (f : List Char) (cs : List Char)
    (hcs : cs.head? ≠ some quoteChar) (fld : List Char) (rec : List String)
    (acc : List (List String)) :
    goCsv (escapeQuotes f ++ quoteChar :: cs) true fld rec acc =
      goCsv cs false (f.reverse ++ fld) rec acc := by
  induction f generalizing fld with
  | nil => simpa [escapeQuotes] using goCsv_true_close cs hcs fld rec acc
  | cons c f' ih =>
      by_cases hc : c = quoteChar
      · subst hc
        rw [show escapeQuotes (quoteChar :: f') = quoteChar :: quoteChar :: escapeQuotes f'
            from by simp [escapeQuotes]]
        rw [List.cons_append, List.cons_append, goCsv_true_pair, ih (quoteChar :: fld)]
        simp
      · rw [show escapeQuotes (c :: f') = c :: escapeQuotes f' from by simp [escapeQuotes, hc]]
        rw [List.cons_append,
          goCsv_true_cons c hc (escapeQuotes f' ++ quoteChar :: cs) (by simp) fld rec acc,
          ih (c :: fld)]
        simp

theorem goCsv_field (f : String) (cs : List Char)
    (hcs : cs.head? ≠ some quoteChar) (rec : List String) (acc : List (List String)) :
    goCsv (encodeField f ++ cs) false [] rec acc =
      goCsv cs false f.data.reverse rec acc := by
  by_cases hq : needsQuote f.data
  · rw [show encodeField f = quoteChar :: (escapeQuotes f.data ++ [quoteChar])
        from by simp [encodeField, hq]]
    rw [List.cons_append, goCsv_false_quote_empty, List.append_assoc, List.singleton_append,
      goCsv_quoted f.data cs hcs [] rec acc]
    simp
  · rw [show encodeField f = f.data from by simp [encodeField, hq]]
    have hf : ∀ c ∈ f.data, ¬(c = commaChar ∨ c = quoteChar ∨ c = newlineChar) := by
      intro c hc hor
      exact hq (by simp [needsQuote, List.any_eq_true]; exact ⟨c, hc, by tauto⟩)
    simpa using goCsv_text f.data hf cs [] rec acc

theorem mkStr_data_reverse (f : String) : mkStr f.data.reverse = f := by
  simp [mkStr]

theorem goCsv_record : ∀ (r : List String), r ≠ [] → ∀ (cs : List Char)
    (rec : List String) (acc : List (List String)),
    goCsv (encodeRecord r ++ newlineChar :: cs) false [] rec acc =
      goCsv cs false [] [] ((rec.reverse ++ r) :: acc)
  | [], h, _, _, _ => absurd rfl h
  | [f], _, cs, rec, acc => by
      rw [show encodeRecord [f] = encodeField f from rfl,
        goCsv_field f (newlineChar :: cs) (by simp [List.head?]; decide) rec acc,
        goCsv_false_newline, mkStr_data_reverse]
      simp
  | f :: g :: rs, _, cs, rec, acc => by
      rw [show encodeRecord (f :: g :: rs) = encodeField f ++ commaChar :: encodeRecord (g :: rs)
          from rfl,
        List.append_assoc, List.cons_append,
        goCsv_field f (commaChar :: (encodeRecord (g :: rs) ++ newlineChar :: cs))
          (by simp [List.head?]; decide) rec acc,
        goCsv_false_comma, mkStr_data_reverse,
        goCsv_record (g :: rs) (by simp) cs (f :: rec) acc]
      simp

theorem goCsv_doc : ∀ (rs : List (List String)), (∀ r ∈ rs, r ≠ []) →
    ∀ (acc : List (List String)),
    goCsv (encodeLines rs) false [] [] acc = some (acc.reverse ++ rs)
  | [], _, acc => by simp [encodeLines, goCsv]
  | r :: rs', h, acc => by
      rw [show encodeLines (r :: rs') = encodeRecord r ++ newlineChar :: encodeLines rs'
          from rfl,
        goCsv_record r (h r (by simp)) (encodeLines rs') [] acc]
      simp only [List.reverse_nil, List.nil_append]
      rw [goCsv_doc rs' (fun r' hr' => h r' (by simp [hr'])) (r :: acc)]
      simp

/-- C5: codec round-trip — for every TabularDataset constructed from valid
rows (a nonempty header and every row with the header's field count),
decoding the encoded form yields a dataset with identical column names,
identical column order, and identical cell text values. -/
theorem decode_encode (d : DataFrame) (h1 : d.header ≠ [])
    (h2 : ∀ r ∈ d.rows, r.length = d.header.length) :
    decode (encode d) = .ok d := by
  have hne : encode d ≠ [] := by
    simp [encode, encodeLines]
  have hnonempty : ∀ r ∈ d.header :: d.rows, r ≠ [] := by
    intro r hr
    rcases List.mem_cons.mp hr with h | h
    · exact h ▸ h1
    · intro hnil
      apply h1
      have := h2 r h
      rw [hnil] at this
      exact List.length_eq_zero.mp this.symm
  have hrecs : parseRecords (encode d) = some (d.header :: d.rows) := by
    simpa [encode, parseRecords] using goCsv_doc (d.header :: d.rows) hnonempty []
  have hall : (d.rows.all fun r => r.length == d.header.length) = true := by
    rw [List.all_eq_true]
    intro r hr
    simpa using h2 r hr
  simp [decode, hne, hrecs, hall]

/-- Witness for C5 at the spec's end-to-end dataset. -/
theorem decode_encode_witness :
    (DataFrame.mk ["name", "score"] [["alice", "10"], ["bob", "20"]]).header ≠ [] ∧
      (∀ r ∈ (DataFrame.mk ["name", "score"] [["alice", "10"], ["bob", "20"]]).rows,
        r.length = (DataFrame.mk ["name", "score"] [["alice", "10"], ["bob", "20"]]).header.length) ∧
      decode (encode (DataFrame.mk ["name", "score"] [["alice", "10"], ["bob", "20"]])) =
        .ok (DataFrame.mk ["name", "score"] [["alice", "10"], ["bob", "20"]]) :=
  ⟨by decide, by decide,
    decode_encode (DataFrame.mk ["name", "score"] [["alice", "10"], ["bob", "20"]])
      (by decide) (by decide)⟩

/-- C1: the claim states that whenever the storage get request errors,
`read_s3_object` returns an `Err` value to its caller.  In the source the
error match arm only emits a log line and produces its unit value; no `Err`
of the declared result type is ever returned, so the failure is swallowed
(the code contradicts the claim and the spec's own stated intent). -/
theorem read_s3_object_error_swallowed (e : GetError) :
    read_s3_object (.error e) = .loggedUnit ∧
      ∀ e' : GetError, read_s3_object (.error e) ≠ .err e' :=
  ⟨rfl, fun _ h => FetchOutcome.noConfusion h⟩

/-- C2: the claim states that the derived destination key is never empty.
The output-key derivation of the source is total and pure only because it is
the constant `""`: for every source key the derived key is the empty
string, violating the non-emptiness requirement. -/
theorem deriveKey_always_empty (k : String) : deriveKey k = "" := rfl

/-- C3: the claim states that an absent source object yields a
`NotFoundError` outcome with zero writer calls.  In the source the get error
is swallowed inside `read_s3_object` and the handler never branches on the
fetch outcome: with the get request failing with the no-such-key error, the
run still performs one put call and reports success. -/
theorem handler_absent_object_still_writes :
    handler ("dst-bucket") (fun _ _ => .error .noSuchKey) (fun _ _ _ => .ok ⟨⟩)
        ⟨⟨[⟨⟨⟨some ("src-bucket")⟩, ⟨some ("in.csv")⟩⟩⟩]⟩, ⟨"req-1"⟩⟩ =
      ⟨.okResponse ⟨"req-1", "Completed Processing Data!"⟩, 1, 1, 1⟩ :=
  rfl

/-- C4: decoding an empty byte sequence and decoding a CSV whose data row
has a different field count than the header both fail with
`MalformedInputError` in the codec, but `read_s3_object` unwraps the decode
result, so on those inputs the process panics instead of returning the typed
error the claim requires. -/
theorem malformed_input_panics :
    decode [] = .error .emptyInput ∧
      decode (("a,b\nx\n").data) = .error .rowFieldCountMismatch ∧
      read_s3_object (.ok []) = .panicked ∧
      read_s3_object (.ok (("a,b\nx\n").data)) = .panicked :=
  ⟨rfl, rfl, rfl, rfl⟩

/-- C6: the transform stage's reference behavior is the identity — for every
input dataset it returns the dataset unchanged, as a pure function with no
storage access. -/
theorem transform_identity (d : DataFrame) : transform d = d := rfl

/-- C7: a trigger event with zero records produces a success result (the
trailing `Ok(())`) and performs no fetch, no transform and no storage writer
call. -/
theorem handler_empty_event_noop (output_bucket : String)
    (get : String → String → Except GetError (List Char))
    (put : String → String → Option (List Char) → Except PutError PutAck)
    (ctx : LambdaContext) :
    handler output_bucket get put ⟨⟨[]⟩, ctx⟩ = ⟨.okUnit, 0, 0, 0⟩ := rfl

/-- C8: the claim states that a successful invocation produces a success
payload containing the request id, the source bucket, the source key and a
message.  The source declares those four fields on `Response` but constructs
the payload from the request id and the message alone: on a successful run
the produced payload is exactly `⟨req_id, msg⟩`, with no bucket and no
key. -/
theorem handler_success_payload_only_req_id_msg :
    handler ("dst-bucket") (fun _ _ => .ok (("name,score\nalice,10\nbob,20\n").data))
        (fun _ _ _ => .ok ⟨⟩)
        ⟨⟨[⟨⟨⟨some ("src-bucket")⟩, ⟨some ("in.csv")⟩⟩⟩]⟩, ⟨"req-1"⟩⟩ =
      ⟨.okResponse ⟨"req-1", "Completed Processing Data!"⟩, 1, 1, 1⟩ :=
  rfl

/-- C9: absence of the destination bucket name or the service region is
startup-fatal — no configured program (and with it no invocation-accepting
process) exists when either required environment value is missing.  The
handler embedding takes the resolved bucket as a plain argument, so no
individual invocation can fail for missing configuration. -/
theorem missing_config_startup_fatal (env : String → Option String)
    (h : env ("OUTPUT_S3_BUCKET") = none ∨ env ("AWS_REGION") = none) :
    mkProgram env = none := by
  rcases h with h | h
  · simp [mkProgram, h]
  · cases hb : env ("OUTPUT_S3_BUCKET") with
    | none => simp [mkProgram, hb]
    | some b => simp [mkProgram, hb, h]

/-- Witness for C9: the empty environment is missing both values and yields
no program. -/
theorem missing_config_startup_fatal_witness :
    ((fun _ : String => (none : Option String)) ("OUTPUT_S3_BUCKET") = none ∨
      (fun _ : String => (none : Option String)) ("AWS_REGION") = none) ∧
      mkProgram (fun _ => none) = none :=
  ⟨Or.inl rfl, missing_config_startup_fatal (fun _ => none) (Or.inl rfl)⟩

/-- C10: there is a trigger event with a record whose bucket name (or object
key) is absent on which the handler panics — the source unwraps both
options — instead of returning a typed error result; shown at one event with
a missing bucket name and one with a missing object key. -/
theorem handler_missing_record_fields_panics (output_bucket : String)
    (get : String → String → Except GetError (List Char))
    (put : String → String → Option (List Char) → Except PutError PutAck) :
    handler output_bucket get put
        ⟨⟨[⟨⟨⟨none⟩, ⟨some ("in.csv")⟩⟩⟩]⟩, ⟨"req-1"⟩⟩ = ⟨.panicked, 0, 0, 0⟩ ∧
      handler output_bucket get put
        ⟨⟨[⟨⟨⟨some ("src-bucket")⟩, ⟨none⟩⟩⟩]⟩, ⟨"req-1"⟩⟩ = ⟨.panicked, 0, 0, 0⟩ :=
  ⟨rfl, rfl⟩

end LambdaPipeline
